import Mathlib

/-!
Shallow embedding of the Mattermost Home Assistant integration
(`custom_components/mattermost`): channel resolution (`_get_channel_id` /
`_async_get_channel_id`), the three message-dispatch paths of
`MattermostNotificationService` (text, local file, remote file), the HTTP
client operations `post_message` / `upload_file`, URL scheme inference from
`async_setup_entry`, and the voluptuous `DATA_SCHEMA` validation from
`notify.py`.

The chat server and the host (Home Assistant) are modelled as oracles
(`Server`, `Host`); every REST round trip the code would issue is recorded
in an `ApiCall` trace so that "no network call" statements are expressible.
-/

/-- Python `str.lstrip("#")`: remove every leading `'#'` character. -/
def lstripHash (s : String) : String := ⟨s.toList.dropWhile (· == '#')⟩

/-- Python `str.isalnum`: true on a nonempty string all of whose characters
are letters or digits. -/
def pyIsAlnum (s : String) : Bool := (s != "") && s.toList.all Char.isAlphanum

/-- Whether the first list is an initial segment of the second. -/
def headMatches : List Char → List Char → Bool
  | [], _ => true
  | _ :: _, [] => false
  | a :: as, b :: bs => a == b && headMatches as bs

/-- Whether `sub` occurs contiguously anywhere in the second list. -/
def subSearch (sub : List Char) : List Char → Bool
  | [] => headMatches sub []
  | b :: bs => headMatches sub (b :: bs) || subSearch sub bs

/-- Python `sub in s` substring containment. -/
def strContains (s sub : String) : Bool := subSearch sub.toList s.toList

/-- Python `s.startswith(p)`. -/
def strStarts (s p : String) : Bool := headMatches p.toList s.toList

/-- Split a character list at each non-overlapping occurrence of `sep`,
left to right; `fuel` bounds the recursion (any `fuel ≥ length` is exact). -/
def splitFuel (sep : List Char) : Nat → List Char → List (List Char)
  | 0, l => [l]
  | _ + 1, [] => [[]]
  | n + 1, c :: cs =>
    if headMatches sep (c :: cs) then
      [] :: splitFuel sep n (List.drop (sep.length - 1) cs)
    else
      match splitFuel sep n cs with
      | [] => [[c]]
      | seg :: rest => (c :: seg) :: rest

/-- Python `s.split(sep)` for a nonempty separator. -/
def pySplit (s sep : String) : List String :=
  if sep.toList.isEmpty then [s]
  else (splitFuel sep.toList s.toList.length s.toList).map (fun l => ⟨l⟩)

/-- Accumulate decimal digits into a number. -/
def digitsToNat : List Char → Nat → Nat
  | [], acc => acc
  | c :: cs, acc => digitsToNat cs (acc * 10 + (c.toNat - ('0').toNat))

/-- Parse a nonempty all-digit string as a natural number. -/
def pyToNat? (s : String) : Option Nat :=
  if (s != "") && s.toList.all Char.isDigit then some (digitsToNat s.toList 0)
  else Option.none

/-- Python `os.path.basename`: the part after the final `'/'`. -/
def basename (p : String) : String := (pySplit p "/").getLastD p

/-- Python `a or b` for an optional string `a`: `b` when `a` is `None` or empty. -/
def pyOrStr (a : Option String) (b : String) : String :=
  match a with
  | some s => if s != "" then s else b
  | Option.none => b

/-- A team as returned by `GET /api/v4/teams` (`{id, name}`). -/
structure Team where
  id : String
  name : String
deriving DecidableEq

/-- A channel as returned by `GET /api/v4/teams/{id}/channels`. -/
structure Channel where
  id : String
  name : String
  display_name : String
deriving DecidableEq

/-- A Python value, as far as the notify `data` payload needs
(strings, numbers, booleans, lists, dicts, `None`). -/
inductive PyVal where
  | str (s : String)
  | intv (n : Int)
  | boolv (b : Bool)
  | listv (vs : List PyVal)
  | dictv (es : List (String × PyVal))
  | noneV

/-- An attachment record: a Python dict keyed by strings. -/
abbrev Attachment := List (String × PyVal)

/-- One REST round trip issued against the Mattermost server. -/
inductive ApiCall where
  | getTeams
  | getChannelByName (teamId channelName : String)
  | listChannels (teamId : String)
  | postMessage (channelId message : String) (props : Option (List Attachment))
  | uploadFile (channelId filePath filename : String)

/-- True exactly on a `POST /api/v4/posts` call. -/
def isPostCall : ApiCall → Bool
  | .postMessage _ _ _ => true
  | _ => false

/-- The Mattermost server, as an oracle for the REST endpoints the client
uses: team list (`none` models a non-200 response), channel-by-slug lookup
(`none` models a non-200, e.g. 404), per-team channel listing, and whether
`POST /posts` / `POST /files` answer 201 for a given channel id. -/
structure Server where
  teams : Option (List Team)
  channelByName : String → String → Option String
  channelsOf : String → Option (List Channel)
  postCreated : String → Bool
  uploadCreated : String → Bool

/-- The display-name comparison of `_get_channel_id`:
`display_name in [f"#{channel_name}", channel_name]`. -/
def dnMatch (channelName : String) (ch : Channel) : Bool :=
  ch.display_name == "#" ++ channelName || ch.display_name == channelName

/-- The per-team search loop of `MattermostHTTPClient._get_channel_id`
(`__init__.py` lines 179-218): for each team, first a slug lookup, then on a
miss a channel listing scanned by display name; first hit wins. -/
def searchTeams (srv : Server) (channelName : String) :
    List Team → Option String × List ApiCall
  | [] => (Option.none, [])
  | t :: ts =>
    match srv.channelByName t.id channelName with
    | some cid => (some cid, [ApiCall.getChannelByName t.id channelName])
    | Option.none =>
      match srv.channelsOf t.id with
      | some chs =>
        match chs.find? (dnMatch channelName) with
        | some ch =>
          (some ch.id,
            [ApiCall.getChannelByName t.id channelName, ApiCall.listChannels t.id])
        | Option.none =>
          let r := searchTeams srv channelName ts
          (r.1, ApiCall.getChannelByName t.id channelName ::
            ApiCall.listChannels t.id :: r.2)
      | Option.none =>
        let r := searchTeams srv channelName ts
        (r.1, ApiCall.getChannelByName t.id channelName ::
          ApiCall.listChannels t.id :: r.2)

/-- `MattermostHTTPClient._get_channel_id` (`__init__.py` lines 152-223):
strip leading `#`, short-circuit on a 26-character alphanumeric id,
otherwise fetch the team list and run the per-team search. -/
def getChannelId (srv : Server) (channel : String) : Option String × List ApiCall :=
  let channelName := lstripHash channel
  if channelName.length == 26 && pyIsAlnum channelName then (some channelName, [])
  else
    match srv.teams with
    | Option.none => (Option.none, [ApiCall.getTeams])
    | some teams =>
      let r := searchTeams srv channelName teams
      (r.1, ApiCall.getTeams :: r.2)

/-- `MattermostNotificationService._async_get_channel_id` (`notify.py` lines
428-456): strip leading `#`, short-circuit on a 26-character alphanumeric
id, otherwise delegate to the client's `_get_channel_id`. -/
def asyncGetChannelId (srv : Server) (channel : String) :
    Option String × List ApiCall :=
  let channelName := lstripHash channel
  if channelName.length == 26 && pyIsAlnum channelName then (some channelName, [])
  else getChannelId srv channelName

/-- `MattermostHTTPClient.post_message` (`__init__.py` lines 91-124):
re-resolve the channel, then `POST /api/v4/posts`; true exactly on 201. -/
def post_message (srv : Server) (channel message : String)
    (props : Option (List Attachment)) : Bool × List ApiCall :=
  match getChannelId srv channel with
  | (some cid, calls) =>
    (srv.postCreated cid, calls ++ [ApiCall.postMessage cid message props])
  | (Option.none, calls) => (false, calls)

/-- `MattermostHTTPClient.upload_file` (`__init__.py` lines 126-150):
re-resolve the channel, open the file (failure is caught and yields
`False`), then `POST /api/v4/files`; true exactly on 201. -/
def upload_file (fs : String → Bool) (srv : Server) (channel filePath : String)
    (filename : Option String) : Bool × List ApiCall :=
  match getChannelId srv channel with
  | (some cid, calls) =>
    if fs filePath then
      (srv.uploadCreated cid,
        calls ++ [ApiCall.uploadFile cid filePath (pyOrStr filename (basename filePath))])
    else (false, calls)
  | (Option.none, calls) => (false, calls)

/-- A concrete server with one team `T1` holding channel slug `general`;
`POST /posts` answers non-201, `POST /files` answers 201. -/
def cidC3 : String := "abcdefghijklmnopqrstuvwxyz"

/-- One-team test server used by several concrete evaluations. -/
def srvC3 : Server where
  teams := some [⟨"T1", "team1"⟩]
  channelByName := fun tid name =>
    if tid == "T1" && name == "general" then some cidC3 else Option.none
  channelsOf := fun _ => some []
  postCreated := fun _ => false
  uploadCreated := fun _ => true

/-- A team yields no match for `channelName`: the slug lookup misses and,
when the channel listing succeeds, no channel matches by display name. -/
def teamMisses (srv : Server) (channelName : String) (t : Team) : Bool :=
  (srv.channelByName t.id channelName).isNone &&
  (match srv.channelsOf t.id with
   | some chs => (chs.find? (dnMatch channelName)).isNone
   | Option.none => true)

/-- The calls a run of teams that all miss contributes to the trace, in
server order: one slug lookup and one channel listing per team. -/
def missCalls (channelName : String) : List Team → List ApiCall
  | [] => []
  | t :: ts => ApiCall.getChannelByName t.id channelName ::
      ApiCall.listChannels t.id :: missCalls channelName ts

/-- A two-team server: team `T0` holds no matching channel and `T1` holds
the slug `general`, so resolution must walk past `T0` in order. -/
def srvC2 : Server where
  teams := some [⟨"T0", "alpha"⟩, ⟨"T1", "team1"⟩]
  channelByName := fun tid name =>
    if tid == "T1" && name == "general" then some cidC3 else Option.none
  channelsOf := fun _ => some []
  postCreated := fun _ => true
  uploadCreated := fun _ => true

/-- Python truthiness of the optional `title` string (`if title:`). -/
def truthyStr : Option String → Bool
  | some s => s != ""
  | _ => false

/-- Python truthiness of the optional attachments list (`if attachments:`). -/
def truthyAtts : Option (List Attachment) → Bool
  | some (_ :: _) => true
  | _ => false

/-- The message-text assembly of `_async_send_text_message` (`notify.py`
lines 237-252): `**title**\n\nbody`, `**title**`, bare body, empty text when
only attachments exist, or `none` when the whole send is skipped. -/
def fullMessageOf (title : Option String) (message : String)
    (attachments : Option (List Attachment)) : Option String :=
  if truthyStr title && (message != "") then
    some ("**" ++ title.getD "" ++ "**\n\n" ++ message)
  else if truthyStr title then some ("**" ++ title.getD "" ++ "**")
  else if message != "" then some message
  else if truthyAtts attachments then some ""
  else Option.none

/-- The default `author_icon` injected into attachments. -/
def defaultAuthorIcon : String :=
  "https://www.home-assistant.io/images/favicon-192x192-full.png"

/-- Attachment processing of `_async_send_text_message` (`notify.py` lines
267-279): copy the dict and add default `author_name` / `author_icon` only
when those keys are absent. -/
def processAttachment (a : Attachment) : Attachment :=
  let a1 := if (a.lookup "author_name").isNone
    then a ++ [("author_name", PyVal.str "Home Assistant")] else a
  if (a1.lookup "author_icon").isNone
    then a1 ++ [("author_icon", PyVal.str defaultAuthorIcon)] else a1

/-- The per-target loop of `_async_send_text_message` (`notify.py` lines
254-288): resolve each target, post on success (the boolean result of
`post_message` is discarded), record resolution failures and keep going. -/
def textLoop (srv : Server) (fullMessage : String)
    (props : Option (List Attachment)) :
    List String → List String × List ApiCall
  | [] => ([], [])
  | target :: rest =>
    let r := textLoop srv fullMessage props rest
    match asyncGetChannelId srv target with
    | (Option.none, rcalls) => (target :: r.1, rcalls ++ r.2)
    | (some cid, rcalls) =>
      let p := post_message srv cid fullMessage props
      (r.1, rcalls ++ p.2 ++ r.2)

/-- `_async_send_text_message` (`notify.py` lines 229-296): assemble the
text (skipping entirely when there is nothing to send), loop over the
targets, and raise one aggregate error when any target failed. -/
def sendTextMessage (srv : Server) (targets : List String) (message : String)
    (title : Option String) (attachments : Option (List Attachment)) :
    Except String Unit × List ApiCall :=
  match fullMessageOf title message attachments with
  | Option.none => (.ok (), [])
  | some fullMessage =>
    let props := if truthyAtts attachments
      then some ((attachments.getD []).map processAttachment) else Option.none
    let r := textLoop srv fullMessage props targets
    if r.1.isEmpty then (.ok (), r.2)
    else (.error ("Failed to send message to channels: " ++
      String.intercalate ", " r.1), r.2)

/-- The Home Assistant host, as an oracle: the file-path allow-list
(`hass.config.is_allowed_path`), file existence (`os.path.isfile`), the
external-URL allow-list (`is_allowed_external_url`), and the remote download
(`session.get`, `none` models a failed request). -/
structure Host where
  allowedPath : String → Bool
  isFile : String → Bool
  allowedUrl : String → Bool
  download : String → Option (String × String) → Option String

/-- The message text used by both file paths (`notify.py` lines 330 and
405): `**title**\n\nmessage` when the title is truthy, the bare message
otherwise. -/
def fileFullMessage (title : Option String) (message : String) : String :=
  if truthyStr title then "**" ++ title.getD "" ++ "**\n\n" ++ message
  else message

/-- Python `aiohttp.BasicAuth(username, password) if username and password
else None`. -/
def pyAuth (username password : Option String) : Option (String × String) :=
  match username, password with
  | some u, some p => if u != "" && p != "" then some (u, p) else Option.none
  | _, _ => Option.none

/-- `_get_filename_from_url` (`notify.py` lines 131-135):
`os.path.basename(urlparse(url).path)` — the final path segment of the URL,
with query and fragment stripped. -/
def getFilenameFromUrl (url : String) : String :=
  let noFrag := (pySplit url "#").headD url
  let noQuery := (pySplit noFrag "?").headD noFrag
  if strContains noQuery "://" then
    match pySplit ((pySplit noQuery "://").getD 1 "") "/" with
    | [] => ""
    | [_] => ""
    | _ :: rest => rest.getLastD ""
  else basename noQuery

/-- The name `tempfile.NamedTemporaryFile(delete=False,
suffix=f"_{filename}")` produces for the `idx`-th target. -/
def tmpPath (idx : Nat) (filename : String) : String :=
  "/tmp/tmp" ++ toString idx ++ "_" ++ filename

/-- The per-target loop of `_async_send_local_file_message` (`notify.py`
lines 318-335): resolve each target, upload on success (the boolean result
of `upload_file` is discarded), record resolution failures and keep going. -/
def localLoop (host : Host) (srv : Server) (filePath fullMessage : String) :
    List String → List String × List ApiCall
  | [] => ([], [])
  | target :: rest =>
    let r := localLoop host srv filePath fullMessage rest
    match asyncGetChannelId srv target with
    | (Option.none, rcalls) => (target :: r.1, rcalls ++ r.2)
    | (some cid, rcalls) =>
      let u := upload_file host.isFile srv cid filePath (some fullMessage)
      (r.1, rcalls ++ u.2 ++ r.2)

/-- `_async_send_local_file_message` (`notify.py` lines 298-343): reject a
path outside the allow-list, then a path that is not a file, both before any
network call; otherwise upload to every target and aggregate failures. -/
def sendLocalFile (host : Host) (srv : Server) (filePath : String)
    (targets : List String) (message : String) (title : Option String) :
    Except String Unit × List ApiCall :=
  if !host.allowedPath filePath then
    (.error ("File path not allowed: " ++ filePath), [])
  else if !host.isFile filePath then
    (.error ("File does not exist: " ++ filePath), [])
  else
    let r := localLoop host srv filePath (fileFullMessage title message) targets
    if r.1.isEmpty then (.ok (), r.2)
    else (.error ("Failed to send file to channels: " ++
      String.intercalate ", " r.1), r.2)

/-- The per-target loop of `_async_send_remote_file_message` (`notify.py`
lines 387-418): resolve, write the downloaded bytes to a fresh temporary
file (`delete=False`), upload, and unlink the temporary file in a `finally`
block. The third component tracks temporary files left on disk (each
target's file, minus the `finally` deletion). -/
def remoteLoop (host : Host) (srv : Server) (fullMessage filename : String) :
    Nat → List String → List String × List ApiCall × List String
  | _, [] => ([], [], [])
  | idx, target :: rest =>
    let r := remoteLoop host srv fullMessage filename (idx + 1) rest
    match asyncGetChannelId srv target with
    | (Option.none, rcalls) => (target :: r.1, rcalls ++ r.2.1, r.2.2)
    | (some cid, rcalls) =>
      let tmp := tmpPath idx filename
      let fs := fun p => p == tmp || host.isFile p
      let u := upload_file fs srv cid tmp (some fullMessage)
      let created := [tmp]
      let removed := [tmp]
      let leftover := created.filter (fun t => !(removed.contains t))
      (r.1, rcalls ++ u.2 ++ r.2.1, leftover ++ r.2.2)

/-- `_async_send_remote_file_message` (`notify.py` lines 345-426): reject a
URL outside the allow-list, download the bytes (failing before any
temporary file exists), then upload per target and aggregate failures. -/
def sendRemoteFile (host : Host) (srv : Server) (url : String)
    (targets : List String) (message : String) (title : Option String)
    (username password : Option String) :
    Except String Unit × List ApiCall × List String :=
  if !host.allowedUrl url then (.error ("URL not allowed: " ++ url), [], [])
  else
    match host.download url (pyAuth username password) with
    | Option.none => (.error ("Failed to download file from " ++ url), [], [])
    | some _content =>
      let r := remoteLoop host srv (fileFullMessage title message)
        (getFilenameFromUrl url) 0 targets
      if r.1.isEmpty then (.ok (), r.2.1, r.2.2)
      else (.error ("Failed to send file to channels: " ++
        String.intercalate ", " r.1), r.2.1, r.2.2)

/-- A concrete host allowing paths under `/media/` where only
`/media/cat.png` exists; every URL is allowed and downloads succeed. -/
def host0 : Host where
  allowedPath := fun p => strStarts p "/media/"
  isFile := fun p => p == "/media/cat.png"
  allowedUrl := fun _ => true
  download := fun _ _ => some "bytes"

/-- Whether the configured URL already carries an explicit scheme. -/
def hasScheme (url : String) : Bool :=
  strStarts url "http://" || strStarts url "https://"

/-- The URL cleanup of `async_setup_entry` (`__init__.py` lines 238-240):
drop everything from `/api/v4` on when the user pasted an API path. -/
def stripApiPath (url : String) : String :=
  if strContains url "/api/v4" then (pySplit url "/api/v4").headD "" else url

/-- The branch condition of `async_setup_entry` (`__init__.py` lines
245-246) choosing plaintext HTTP: literal prefixes `192.168.` / `10.` /
`127.`, or `localhost` anywhere in the address. -/
def httpHeuristic (url : String) : Bool :=
  strStarts url "192.168." || strStarts url "10." || strStarts url "127." ||
    strContains url "localhost"

/-- Scheme inference of `async_setup_entry` (`__init__.py` lines 243-249). -/
def inferScheme (url : String) : String :=
  if hasScheme url then url
  else if httpHeuristic url then "http://" ++ url
  else "https://" ++ url

/-- The full URL normalization of `async_setup_entry`: strip a pasted API
path, then infer the scheme. -/
def normalizeUrl (url : String) : String := inferScheme (stripApiPath url)

/-- Modelled from the spec words "private/loopback addresses": the address
is `localhost`, or a dotted-quad IPv4 literal that is RFC1918 private
(10/8, 172.16/12, 192.168/16) or loopback (127/8). Used only to compare the
spec's abstraction against the code's prefix test. -/
def specPrivateOrLoopback (s : String) : Bool :=
  s == "localhost" ||
  (match (pySplit s ".").map pyToNat? with
   | [some a, some b, some c, some d] =>
     decide (a ≤ 255) && decide (b ≤ 255) && decide (c ≤ 255) &&
       decide (d ≤ 255) &&
       (a == 10 || (a == 172 && decide (16 ≤ b) && decide (b ≤ 31)) ||
         (a == 192 && b == 168) || a == 127)
   | _ => false)

/-- Whether a Python value is a string (voluptuous `str` validator). -/
def isStr : PyVal → Bool
  | .str _ => true
  | _ => false

/-- Whether a Python value is a list (voluptuous `list` validator). -/
def isList : PyVal → Bool
  | .listv _ => true
  | _ => false

/-- Whether a Python value is `None`. -/
def isNoneVal : PyVal → Bool
  | .noneV => true
  | _ => false

/-- One key/value of `ATTACHMENT_SCHEMA` (`notify.py` lines 64-81): every
key optional, values `str` except `fields`, which is a `list`. -/
def attachmentKeyOk (k : String) (v : PyVal) : Bool :=
  if k == "fields" then isList v
  else
    (["fallback", "color", "pretext", "author_name", "author_link",
      "author_icon", "title", "title_link", "text", "image_url", "thumb_url",
      "footer", "footer_icon"].contains k) && isStr v

/-- `ATTACHMENT_SCHEMA`: a dict whose entries all satisfy the key table. -/
def validAttachment (v : PyVal) : Bool :=
  match v with
  | .dictv es => es.all (fun kv => attachmentKeyOk kv.1 kv.2)
  | _ => false

/-- `DATA_TEXT_ONLY_SCHEMA` (`notify.py` lines 89-93): only the optional
`attachments` key, a list of valid attachments. -/
def validTextOnly (v : PyVal) : Bool :=
  match v with
  | .dictv es =>
    es.all (fun kv => kv.1 == "attachments" &&
      (match kv.2 with
       | .listv vs => vs.all validAttachment
       | _ => false))
  | _ => false

/-- `FILE_PATH_SCHEMA` (`notify.py` line 54): exactly a required string
`path`. -/
def validFilePathV (v : PyVal) : Bool :=
  match v with
  | .dictv es =>
    es.all (fun kv => kv.1 == "path" && isStr kv.2) && (es.lookup "path").isSome
  | _ => false

/-- `FILE_URL_SCHEMA` (`notify.py` lines 56-62): required string `url`,
with `username` / `password` strings allowed only together. -/
def validFileUrlV (v : PyVal) : Bool :=
  match v with
  | .dictv es =>
    es.all (fun kv =>
      (kv.1 == "url" || kv.1 == "username" || kv.1 == "password") && isStr kv.2)
      && (es.lookup "url").isSome
      && ((es.lookup "username").isSome == (es.lookup "password").isSome)
  | _ => false

/-- `DATA_FILE_SCHEMA` (`notify.py` lines 83-87): exactly a required `file`
key matching either file schema. -/
def validDataFile (v : PyVal) : Bool :=
  match v with
  | .dictv es =>
    es.all (fun kv => kv.1 == "file" && (validFilePathV kv.2 || validFileUrlV kv.2))
      && (es.lookup "file").isSome
  | _ => false

/-- `DATA_SCHEMA` (`notify.py` line 95): `vol.Any` of the file schema, the
text-only schema, and `None`. -/
def validData (v : PyVal) : Bool :=
  validDataFile v || validTextOnly v || isNoneVal v

/-- Python truthiness of a value (`kwargs.get(ATTR_DATA) or {}`). -/
def pyTruthy : PyVal → Bool
  | .noneV => false
  | .str s => s != ""
  | .intv n => n != 0
  | .boolv b => b
  | .listv vs => !vs.isEmpty
  | .dictv es => !es.isEmpty

/-- Python `d.get(k)` on a dict value. -/
def dictGet : PyVal → String → Option PyVal
  | .dictv es, k => es.lookup k
  | _, _ => Option.none

/-- Extract the string payload of an optional value (post-validation the
value is always a string on these paths). -/
def strOf : Option PyVal → String
  | some (.str s) => s
  | _ => ""

/-- Extract an optional string payload (`file_data.get(ATTR_USERNAME)`). -/
def strOptOf : Option PyVal → Option String
  | some (.str s) => some s
  | _ => Option.none

/-- The `data.get(ATTR_ATTACHMENTS)` value as the attachment-list argument
of `_async_send_text_message` (post-validation it is a list of dicts). -/
def attachmentsOf : Option PyVal → Option (List Attachment)
  | some (.listv vs) =>
    some (vs.map (fun v => match v with | .dictv es => es | _ => []))
  | some _ => some []
  | Option.none => Option.none

/-- `async_send_message` (`notify.py` lines 192-227): validate the `data`
payload, silently replacing an invalid one by `{}`; sanitize the targets
(defaulting to the configured channel); then branch on the presence and
shape of the `file` key into the text, local-file or remote-file path. -/
def asyncSendMessage (host : Host) (srv : Server) (defaultChannel : String)
    (message : String) (title : Option String)
    (target? : Option (List String)) (data? : Option PyVal) :
    Except String Unit × List ApiCall :=
  let data0 := match data? with
    | some d => if pyTruthy d then d else PyVal.dictv []
    | Option.none => PyVal.dictv []
  let data := if validData data0 then data0 else PyVal.dictv []
  let targets := (target?.getD [defaultChannel]).map lstripHash
  match dictGet data "file" with
  | Option.none =>
    sendTextMessage srv targets message title
      (attachmentsOf (dictGet data "attachments"))
  | some fileData =>
    if (dictGet fileData "path").isSome then
      sendLocalFile host srv (strOf (dictGet fileData "path")) targets
        message title
    else
      let r := sendRemoteFile host srv (strOf (dictGet fileData "url"))
        targets message title (strOptOf (dictGet fileData "username"))
        (strOptOf (dictGet fileData "password"))
      (r.1, r.2.1)

/-- C1: a reference that strips to a 26-character alphanumeric string is
returned unchanged by both resolution entry points, with no network call. -/
theorem C1_id_bypass (srv : Server) (channel : String)
    (h : ((lstripHash channel).length == 26 && pyIsAlnum (lstripHash channel)) = true) :
    asyncGetChannelId srv channel = (some (lstripHash channel), []) ∧
    getChannelId srv channel = (some (lstripHash channel), []) := by
  constructor
  · unfold asyncGetChannelId
    simp only [h, if_true]
  · unfold getChannelId
    simp only [h, if_true]

/-- Witness for C1 at the concrete reference `#a1b2c3d4e5f6g7h8i9j0k1l2m3`. -/
theorem C1_id_bypass_witness :
    ((lstripHash "#a1b2c3d4e5f6g7h8i9j0k1l2m3").length == 26 &&
      pyIsAlnum (lstripHash "#a1b2c3d4e5f6g7h8i9j0k1l2m3")) = true ∧
    asyncGetChannelId srvC3 "#a1b2c3d4e5f6g7h8i9j0k1l2m3" =
      (some "a1b2c3d4e5f6g7h8i9j0k1l2m3", []) := by
  have e : lstripHash "#a1b2c3d4e5f6g7h8i9j0k1l2m3" = "a1b2c3d4e5f6g7h8i9j0k1l2m3" := by
    decide
  refine ⟨by decide, ?_⟩
  have h := (C1_id_bypass srvC3 "#a1b2c3d4e5f6g7h8i9j0k1l2m3" (by decide)).1
  rw [e] at h
  exact h

/-- The search over teams returns no channel id exactly when every team
misses both by slug and by display name. -/
theorem searchTeams_none_iff (srv : Server) (s : String) :
    ∀ ts : List Team,
      (searchTeams srv s ts).1 = Option.none ↔ ts.all (teamMisses srv s) = true := by
  intro ts
  induction ts with
  | nil => simp [searchTeams]
  | cons t ts ih =>
    cases h1 : srv.channelByName t.id s with
    | some cid => simp [searchTeams, h1, teamMisses]
    | none =>
      cases h2 : srv.channelsOf t.id with
      | some chs =>
        cases h3 : chs.find? (dnMatch s) with
        | some ch => simp [searchTeams, h1, h2, h3, teamMisses]
        | none => simp [searchTeams, h1, h2, h3, teamMisses, ih]
      | none => simp [searchTeams, h1, h2, teamMisses, ih]

/-- A run of teams that all miss is walked in order, contributing its two
calls per team to the trace, and the search continues on the rest. -/
theorem searchTeams_skip_misses (srv : Server) (s : String) :
    ∀ ts₁ rest, (∀ u ∈ ts₁, teamMisses srv s u = true) →
      searchTeams srv s (ts₁ ++ rest) =
        ((searchTeams srv s rest).1,
          missCalls s ts₁ ++ (searchTeams srv s rest).2) := by
  intro ts₁
  induction ts₁ with
  | nil =>
    intro rest hm
    simp [missCalls]
  | cons t ts ih =>
    intro rest hm
    have hmt : teamMisses srv s t = true := hm t (by simp)
    have htail : ∀ u ∈ ts, teamMisses srv s u = true :=
      fun u hu => hm u (by simp [hu])
    have h1 : srv.channelByName t.id s = Option.none := by
      unfold teamMisses at hmt
      cases hb : srv.channelByName t.id s with
      | none => rfl
      | some cid => rw [hb] at hmt; simp at hmt
    cases h2 : srv.channelsOf t.id with
    | some chs =>
      have h3 : chs.find? (dnMatch s) = Option.none := by
        unfold teamMisses at hmt
        rw [h1, h2] at hmt
        simpa using hmt
      simp [List.cons_append, searchTeams, h1, h2, h3, missCalls, ih rest htail]
    | none =>
      simp [List.cons_append, searchTeams, h1, h2, missCalls, ih rest htail]

/-- C2 counterexample: the reference `"#" ++ <26 alphanumerics>` is not
itself a 26-character alphanumeric string, yet resolution performs no
team-list fetch at all (the trace is empty). -/
theorem C2_counterexample :
    ¬ (("#abcdefghijklmnopqrstuvwxyz").length = 26 ∧
        pyIsAlnum "#abcdefghijklmnopqrstuvwxyz" = true) ∧
    getChannelId srvC3 "#abcdefghijklmnopqrstuvwxyz" =
      (some "abcdefghijklmnopqrstuvwxyz", []) := by
  constructor
  · decide
  · rfl

/-- C2 amended: for a reference whose remainder after stripping leading `#`
is not a 26-character alphanumeric string, resolution fetches the team list
first; a failed or empty team list yields NotFound with no further calls;
the teams are searched in server-returned order — after any run of earlier
teams that all miss (each contributing its slug lookup and channel listing
to the trace, in order), the first team whose slug lookup hits wins
immediately and the trace stops there, and on a slug miss of that team the
first display-name match in its listing wins with the trace stopping there;
and NotFound is returned (given a team list) exactly when every team
misses. -/
theorem C2_resolution_search (srv : Server) (ref : String)
    (h : ((lstripHash ref).length == 26 && pyIsAlnum (lstripHash ref)) = false) :
    (srv.teams = Option.none →
      getChannelId srv ref = (Option.none, [ApiCall.getTeams])) ∧
    (srv.teams = some [] →
      getChannelId srv ref = (Option.none, [ApiCall.getTeams])) ∧
    ((getChannelId srv ref).2.head? = some ApiCall.getTeams) ∧
    (∀ ts₁ t ts₂ cid, srv.teams = some (ts₁ ++ t :: ts₂) →
      (∀ u ∈ ts₁, teamMisses srv (lstripHash ref) u = true) →
      srv.channelByName t.id (lstripHash ref) = some cid →
      getChannelId srv ref = (some cid,
        ApiCall.getTeams :: (missCalls (lstripHash ref) ts₁ ++
          [ApiCall.getChannelByName t.id (lstripHash ref)]))) ∧
    (∀ ts₁ t ts₂ chs ch, srv.teams = some (ts₁ ++ t :: ts₂) →
      (∀ u ∈ ts₁, teamMisses srv (lstripHash ref) u = true) →
      srv.channelByName t.id (lstripHash ref) = Option.none →
      srv.channelsOf t.id = some chs →
      chs.find? (dnMatch (lstripHash ref)) = some ch →
      getChannelId srv ref = (some ch.id,
        ApiCall.getTeams :: (missCalls (lstripHash ref) ts₁ ++
          [ApiCall.getChannelByName t.id (lstripHash ref),
            ApiCall.listChannels t.id]))) ∧
    (∀ teams, srv.teams = some teams →
      ((getChannelId srv ref).1 = Option.none ↔
        teams.all (teamMisses srv (lstripHash ref)) = true)) := by
  refine ⟨?_, ?_, ?_, ?_, ?_, ?_⟩
  · intro ht
    unfold getChannelId
    simp [h, ht]
  · intro ht
    unfold getChannelId
    simp [h, ht, searchTeams]
  · unfold getChannelId
    simp only [h, Bool.false_eq_true, if_false]
    cases ht : srv.teams with
    | none => rfl
    | some teams => rfl
  · intro ts₁ t ts₂ cid ht hmiss h1
    unfold getChannelId
    simp only [h, Bool.false_eq_true, if_false, ht]
    rw [searchTeams_skip_misses srv (lstripHash ref) ts₁ (t :: ts₂) hmiss]
    simp [searchTeams, h1]
  · intro ts₁ t ts₂ chs ch ht hmiss h1 h2 h3
    unfold getChannelId
    simp only [h, Bool.false_eq_true, if_false, ht]
    rw [searchTeams_skip_misses srv (lstripHash ref) ts₁ (t :: ts₂) hmiss]
    simp [searchTeams, h1, h2, h3]
  · intro teams ht
    unfold getChannelId
    simp [h, ht, searchTeams_none_iff]

/-- Looking a key up in an appended association list tries the left list
first and falls back to the right one. -/
theorem lookup_append_or {β : Type} (l₁ l₂ : List (String × β)) (k : String) :
    (l₁ ++ l₂).lookup k = ((l₁.lookup k).or (l₂.lookup k)) := by
  induction l₁ with
  | nil => simp [List.lookup]
  | cons p t ih =>
    obtain ⟨k', v⟩ := p
    by_cases h : k == k'
    · simp [List.lookup, h]
    · simp only [List.cons_append, List.lookup, h]
      exact ih

/-- C3 evaluated at a failing input: against a server whose `POST /posts`
answers a non-201 status for the resolved channel, a one-target text send
still completes without error and records no failed target, because the
boolean result of `post_message` is discarded. -/
theorem C3_post_failure_ignored :
    srvC3.postCreated cidC3 = false ∧
    sendTextMessage srvC3 ["general"] "hi" Option.none Option.none =
      (.ok (), [ApiCall.getTeams, ApiCall.getChannelByName "T1" "general",
        ApiCall.postMessage cidC3 "hi" Option.none]) :=
  ⟨rfl, rfl⟩

/-- C4: text assembly — `**title**\n\nbody` when both are present,
the present one alone otherwise; with neither present an empty-body post
carrying the processed attachments is sent when attachments exist, and
nothing at all is sent (and no failure reported) when they do not. -/
theorem C4_message_assembly (srv : Server) (title : Option String)
    (message : String) (atts : Option (List Attachment)) :
    (truthyStr title = true → (message != "") = true →
      fullMessageOf title message atts =
        some ("**" ++ title.getD "" ++ "**\n\n" ++ message)) ∧
    (truthyStr title = true → (message != "") = false →
      fullMessageOf title message atts = some ("**" ++ title.getD "" ++ "**")) ∧
    (truthyStr title = false → (message != "") = true →
      fullMessageOf title message atts = some message) ∧
    (∀ target cid rcalls, truthyStr title = false → (message != "") = false →
      truthyAtts atts = true →
      asyncGetChannelId srv target = (some cid, rcalls) →
      sendTextMessage srv [target] message title atts =
        (.ok (), rcalls ++
          (post_message srv cid "" (some ((atts.getD []).map processAttachment))).2)) ∧
    (∀ targets, truthyStr title = false → (message != "") = false →
      truthyAtts atts = false →
      sendTextMessage srv targets message title atts = (.ok (), [])) := by
  refine ⟨?_, ?_, ?_, ?_, ?_⟩
  · intro h1 h2
    simp [fullMessageOf, h1, h2]
  · intro h1 h2
    simp [fullMessageOf, h1, h2]
  · intro h1 h2
    simp [fullMessageOf, h1, h2]
  · intro target cid rcalls h1 h2 h3 hres
    have hm : (message = "") := by simpa using h2
    subst hm
    simp [sendTextMessage, fullMessageOf, h1, h3, textLoop, hres]
  · intro targets h1 h2 h3
    have hm : (message = "") := by simpa using h2
    subst hm
    simp [sendTextMessage, fullMessageOf, h1, h3]

/-- Witness for C4 at concrete inputs: both-present rendering, the
empty-body post carrying one attachment, and the silent skip. -/
theorem C4_message_assembly_witness :
    fullMessageOf (some "Alert") "Door open" Option.none =
      some ("**" ++ (some "Alert").getD "" ++ "**\n\n" ++ "Door open") ∧
    sendTextMessage srvC3 [cidC3] "" Option.none
        (some [[("color", PyVal.str "red")]]) =
      (.ok (), [] ++ (post_message srvC3 cidC3 ""
        (some (((some [[("color", PyVal.str "red")]] :
          Option (List Attachment)).getD []).map processAttachment))).2) ∧
    sendTextMessage srvC3 ["general"] "" Option.none Option.none = (.ok (), []) := by
  refine ⟨?_, ?_, ?_⟩
  · exact (C4_message_assembly srvC3 (some "Alert") "Door open" Option.none).1 rfl rfl
  · exact (C4_message_assembly srvC3 Option.none ""
      (some [[("color", PyVal.str "red")]])).2.2.2.1 cidC3 cidC3 [] rfl rfl rfl rfl
  · exact (C4_message_assembly srvC3 Option.none "" Option.none).2.2.2.2
      ["general"] rfl rfl rfl

/-- C8: attachment processing injects the default author name and icon only
when those keys are absent, and never changes a key that is present. -/
theorem C8_attachment_defaults (a : Attachment) :
    (a.lookup "author_name" = Option.none →
      (processAttachment a).lookup "author_name" =
        some (PyVal.str "Home Assistant")) ∧
    (a.lookup "author_icon" = Option.none →
      (processAttachment a).lookup "author_icon" =
        some (PyVal.str defaultAuthorIcon)) ∧
    (∀ k v, a.lookup k = some v → (processAttachment a).lookup k = some v) := by
  refine ⟨?_, ?_, ?_⟩
  · intro h
    unfold processAttachment
    rw [if_pos (show (List.lookup "author_name" a).isNone = true by simp [h])]
    by_cases h2 : (List.lookup "author_icon"
        (a ++ [("author_name", PyVal.str "Home Assistant")])).isNone = true
    · rw [if_pos h2]
      simp [lookup_append_or, h, List.lookup, Option.or]
    · rw [if_neg h2]
      simp [lookup_append_or, h, List.lookup, Option.or]
  · intro h
    unfold processAttachment
    by_cases h1 : (List.lookup "author_name" a).isNone = true
    · rw [if_pos h1]
      rw [if_pos (show (List.lookup "author_icon"
          (a ++ [("author_name", PyVal.str "Home Assistant")])).isNone = true by
        simp [lookup_append_or, h, List.lookup, Option.or])]
      simp [lookup_append_or, h, List.lookup, Option.or]
    · rw [if_neg h1]
      rw [if_pos (show (List.lookup "author_icon" a).isNone = true by simp [h])]
      simp [lookup_append_or, h, List.lookup, Option.or]
  · intro k v h
    unfold processAttachment
    by_cases h1 : (List.lookup "author_name" a).isNone = true
    · rw [if_pos h1]
      by_cases h2 : (List.lookup "author_icon"
          (a ++ [("author_name", PyVal.str "Home Assistant")])).isNone = true
      · rw [if_pos h2]
        simp [lookup_append_or, h, Option.or]
      · rw [if_neg h2]
        simp [lookup_append_or, h, Option.or]
    · rw [if_neg h1]
      by_cases h2 : (List.lookup "author_icon" a).isNone = true
      · rw [if_pos h2]
        simp [lookup_append_or, h, Option.or]
      · rw [if_neg h2]
        exact h

/-- Witness for C8 on a concrete attachment that has neither default key. -/
theorem C8_attachment_defaults_witness :
    (processAttachment [("color", PyVal.str "red")]).lookup "author_name" =
      some (PyVal.str "Home Assistant") ∧
    (processAttachment [("color", PyVal.str "red")]).lookup "author_icon" =
      some (PyVal.str defaultAuthorIcon) ∧
    (processAttachment [("color", PyVal.str "red")]).lookup "color" =
      some (PyVal.str "red") := by
  refine ⟨?_, ?_, ?_⟩
  · exact (C8_attachment_defaults [("color", PyVal.str "red")]).1 rfl
  · exact (C8_attachment_defaults [("color", PyVal.str "red")]).2.1 rfl
  · exact (C8_attachment_defaults [("color", PyVal.str "red")]).2.2 "color"
      (PyVal.str "red") rfl

/-- The per-team search never issues a message-post call. -/
theorem searchTeams_noPost (srv : Server) (s : String) :
    ∀ ts, ∀ x ∈ (searchTeams srv s ts).2, isPostCall x = false := by
  intro ts
  induction ts with
  | nil => intro x hx; simp [searchTeams] at hx
  | cons t ts ih =>
    intro x hx
    cases h1 : srv.channelByName t.id s with
    | some cid =>
      simp [searchTeams, h1] at hx
      subst hx; rfl
    | none =>
      cases h2 : srv.channelsOf t.id with
      | some chs =>
        cases h3 : chs.find? (dnMatch s) with
        | some ch =>
          simp [searchTeams, h1, h2, h3] at hx
          rcases hx with hx | hx <;> (subst hx; rfl)
        | none =>
          simp [searchTeams, h1, h2, h3] at hx
          rcases hx with hx | hx | hx
          · subst hx; rfl
          · subst hx; rfl
          · exact ih x hx
      | none =>
        simp [searchTeams, h1, h2] at hx
        rcases hx with hx | hx | hx
        · subst hx; rfl
        · subst hx; rfl
        · exact ih x hx

/-- Channel resolution never issues a message-post call. -/
theorem getChannelId_noPost (srv : Server) (c : String) :
    ∀ x ∈ (getChannelId srv c).2, isPostCall x = false := by
  intro x hx
  unfold getChannelId at hx
  cases h : ((lstripHash c).length == 26 && pyIsAlnum (lstripHash c)) with
  | true => simp [h] at hx
  | false =>
    simp only [h, Bool.false_eq_true, if_false] at hx
    cases ht : srv.teams with
    | none =>
      rw [ht] at hx
      simp at hx
      subst hx; rfl
    | some teams =>
      rw [ht] at hx
      simp at hx
      rcases hx with hx | hx
      · subst hx; rfl
      · exact searchTeams_noPost srv (lstripHash c) teams x hx

/-- The notify-side resolution wrapper never issues a message-post call. -/
theorem asyncGetChannelId_noPost (srv : Server) (c : String) :
    ∀ x ∈ (asyncGetChannelId srv c).2, isPostCall x = false := by
  intro x hx
  unfold asyncGetChannelId at hx
  cases h : ((lstripHash c).length == 26 && pyIsAlnum (lstripHash c)) with
  | true => simp [h] at hx
  | false =>
    simp only [h, Bool.false_eq_true, if_false] at hx
    exact getChannelId_noPost srv (lstripHash c) x hx

/-- A file upload never issues a message-post call. -/
theorem upload_file_noPost (fs : String → Bool) (srv : Server)
    (channel filePath : String) (filename : Option String) :
    ∀ x ∈ (upload_file fs srv channel filePath filename).2,
      isPostCall x = false := by
  intro x hx
  unfold upload_file at hx
  have hc := getChannelId_noPost srv channel
  cases h : getChannelId srv channel with
  | mk cidOpt calls =>
    rw [h] at hx hc
    cases cidOpt with
    | none => exact hc x hx
    | some cid =>
      cases hf : fs filePath with
      | true =>
        simp [hf] at hx
        rcases hx with hx | hx
        · exact hc x hx
        · subst hx; rfl
      | false =>
        simp [hf] at hx
        exact hc x hx

/-- The local-file per-target loop never issues a message-post call. -/
theorem localLoop_noPost (host : Host) (srv : Server) (filePath m : String) :
    ∀ targets, ∀ x ∈ (localLoop host srv filePath m targets).2,
      isPostCall x = false := by
  intro targets
  induction targets with
  | nil => intro x hx; simp [localLoop] at hx
  | cons target rest ih =>
    intro x hx
    have hr := asyncGetChannelId_noPost srv target
    cases hres : asyncGetChannelId srv target with
    | mk cidOpt rcalls =>
      rw [hres] at hr
      cases cidOpt with
      | none =>
        simp [localLoop, hres] at hx
        rcases hx with hx | hx
        · exact hr x hx
        · exact ih x hx
      | some cid =>
        have hu := upload_file_noPost host.isFile srv cid filePath (some m)
        simp [localLoop, hres] at hx
        rcases hx with hx | hx | hx
        · exact hr x hx
        · exact hu x hx
        · exact ih x hx

/-- C5 counterexample: a fully successful local-file send issues exactly one
upload call and no message-post call at all — there is no follow-up message
referencing a file id — and the upload call's filename field carries the
assembled message text; `upload_file` itself returns only a boolean. -/
theorem C5_counterexample :
    sendLocalFile host0 srvC3 "/media/cat.png" [cidC3] "hello" (some "Ti") =
      (.ok (), [ApiCall.uploadFile cidC3 "/media/cat.png" "**Ti**\n\nhello"]) ∧
    upload_file host0.isFile srvC3 cidC3 "/media/cat.png" (some "x") =
      (true, [ApiCall.uploadFile cidC3 "/media/cat.png" "x"]) ∧
    (([ApiCall.uploadFile cidC3 "/media/cat.png" "**Ti**\n\nhello"]).all
      (fun c => !isPostCall c)) = true :=
  ⟨rfl, rfl, rfl⟩

/-- C5 amended: `upload_file` returns a boolean that is true exactly when
the channel resolves, the file opens and the server answers 201; the local
dispatcher passes the assembled message text in the filename position of the
upload; and a local-file send never issues any message-post call. -/
theorem C5_upload_boolean_no_followup (fs : String → Bool) (host : Host)
    (srv : Server) (channel filePath : String) (filename : Option String)
    (targets : List String) (message : String) (title : Option String) :
    (∀ cid rcalls, getChannelId srv channel = (some cid, rcalls) →
      fs filePath = true →
      upload_file fs srv channel filePath filename =
        (srv.uploadCreated cid,
          rcalls ++ [ApiCall.uploadFile cid filePath
            (pyOrStr filename (basename filePath))])) ∧
    (∀ x ∈ (sendLocalFile host srv filePath targets message title).2,
      isPostCall x = false) ∧
    (∀ target cid rcalls, host.allowedPath filePath = true →
      host.isFile filePath = true →
      asyncGetChannelId srv target = (some cid, rcalls) →
      (sendLocalFile host srv filePath [target] message title).2 =
        rcalls ++ (upload_file host.isFile srv cid filePath
          (some (fileFullMessage title message))).2) := by
  refine ⟨?_, ?_, ?_⟩
  · intro cid rcalls h hfs
    simp [upload_file, h, hfs]
  · intro x hx
    unfold sendLocalFile at hx
    cases hp : host.allowedPath filePath with
    | false => simp [hp] at hx
    | true =>
      cases hf : host.isFile filePath with
      | false => simp [hp, hf] at hx
      | true =>
        have hl := localLoop_noPost host srv filePath
          (fileFullMessage title message) targets
        simp only [hp, hf, Bool.not_true, Bool.false_eq_true, if_false] at hx
        cases hE : (localLoop host srv filePath
            (fileFullMessage title message) targets).1.isEmpty with
        | true =>
          simp [hE] at hx
          exact hl x hx
        | false =>
          simp [hE] at hx
          exact hl x hx
  · intro target cid rcalls hp hf hres
    simp [sendLocalFile, hp, hf, localLoop, hres]

/-- Witness for C5 amended, at the concrete one-team server. -/
theorem C5_upload_boolean_no_followup_witness :
    upload_file host0.isFile srvC3 cidC3 "/media/cat.png" (some "**Ti**\n\nhello") =
      (srvC3.uploadCreated cidC3,
        [] ++ [ApiCall.uploadFile cidC3 "/media/cat.png"
          (pyOrStr (some "**Ti**\n\nhello") (basename "/media/cat.png"))]) ∧
    (sendLocalFile host0 srvC3 "/media/cat.png" [cidC3] "hello" (some "Ti")).2 =
      [] ++ (upload_file host0.isFile srvC3 cidC3 "/media/cat.png"
        (some (fileFullMessage (some "Ti") "hello"))).2 := by
  constructor
  · exact (C5_upload_boolean_no_followup host0.isFile host0 srvC3 cidC3
      "/media/cat.png" (some "**Ti**\n\nhello") [cidC3] "hello" (some "Ti")).1
      cidC3 [] rfl rfl
  · exact (C5_upload_boolean_no_followup host0.isFile host0 srvC3 cidC3
      "/media/cat.png" Option.none [cidC3] "hello" (some "Ti")).2.2
      cidC3 cidC3 [] rfl rfl rfl

/-- The remote-file per-target loop leaves no temporary file behind. -/
theorem remoteLoop_no_leftover (host : Host) (srv : Server) (m f : String) :
    ∀ idx ts, (remoteLoop host srv m f idx ts).2.2 = [] := by
  intro idx ts
  induction ts generalizing idx with
  | nil => rfl
  | cons target rest ih =>
    cases hres : asyncGetChannelId srv target with
    | mk cidOpt rcalls =>
      cases cidOpt with
      | none => simp [remoteLoop, hres, ih]
      | some cid => simp [remoteLoop, hres, ih, List.filter, List.contains]

/-- C6: every remote-file send — upload success, upload failure, resolution
failure and download failure alike — leaves no temporary file behind. -/
theorem C6_remote_temp_cleanup (host : Host) (srv : Server) (url : String)
    (targets : List String) (message : String) (title : Option String)
    (username password : Option String) :
    (sendRemoteFile host srv url targets message title username password).2.2
      = [] := by
  unfold sendRemoteFile
  cases hu : host.allowedUrl url with
  | false => rfl
  | true =>
    simp only [hu, Bool.not_true, Bool.false_eq_true, if_false]
    cases hd : host.download url (pyAuth username password) with
    | none => rfl
    | some c =>
      cases hE : (remoteLoop host srv (fileFullMessage title message)
          (getFilenameFromUrl url) 0 targets).1.isEmpty with
      | true => simp [hE, remoteLoop_no_leftover]
      | false => simp [hE, remoteLoop_no_leftover]

/-- C7 counterexample: an allowed path that names no existing file is
rejected before any network call, but with the file-does-not-exist error,
not the path-not-allowed error the claim names. -/
theorem C7_counterexample :
    host0.allowedPath "/media/missing.png" = true ∧
    host0.isFile "/media/missing.png" = false ∧
    sendLocalFile host0 srvC3 "/media/missing.png" ["general"] "m" Option.none =
      (.error ("File does not exist: /media/missing.png"), []) ∧
    "File does not exist: /media/missing.png" ≠
      "File path not allowed: " ++ "/media/missing.png" := by
  refine ⟨by decide, by decide, ?_, by decide⟩
  rfl

/-- C7 amended: a path outside the allow-list fails with the
path-not-allowed error, and an allowed path that is not an existing file
fails with the file-does-not-exist error; both before any network call. -/
theorem C7_local_file_precheck (host : Host) (srv : Server)
    (filePath : String) (targets : List String) (message : String)
    (title : Option String) :
    (host.allowedPath filePath = false →
      sendLocalFile host srv filePath targets message title =
        (.error ("File path not allowed: " ++ filePath), [])) ∧
    (host.allowedPath filePath = true → host.isFile filePath = false →
      sendLocalFile host srv filePath targets message title =
        (.error ("File does not exist: " ++ filePath), [])) := by
  constructor
  · intro h
    simp [sendLocalFile, h]
  · intro h1 h2
    simp [sendLocalFile, h1, h2]

/-- Witness for C7 amended at two concrete paths. -/
theorem C7_local_file_precheck_witness :
    sendLocalFile host0 srvC3 "/etc/passwd" ["general"] "m" Option.none =
      (.error ("File path not allowed: " ++ "/etc/passwd"), []) ∧
    sendLocalFile host0 srvC3 "/media/nope.png" ["general"] "m" Option.none =
      (.error ("File does not exist: " ++ "/media/nope.png"), []) := by
  constructor
  · exact (C7_local_file_precheck host0 srvC3 "/etc/passwd" ["general"] "m"
      Option.none).1 (by decide)
  · exact (C7_local_file_precheck host0 srvC3 "/media/nope.png" ["general"] "m"
      Option.none).2 (by decide) (by decide)

/-- C9 counterexample: `172.16.0.1` is a private (RFC1918 172.16/12)
address with no scheme, yet the code's prefix test assigns it `https`,
not the plaintext `http` the claim requires for every private address. -/
theorem C9_counterexample :
    specPrivateOrLoopback "172.16.0.1" = true ∧
    hasScheme "172.16.0.1" = false ∧
    normalizeUrl "172.16.0.1" = "https://" ++ "172.16.0.1" := by
  refine ⟨by decide, by decide, by decide⟩

/-- C9 amended: when the configured URL carries no scheme (and no pasted
API path), addresses starting with `192.168.`, `10.` or `127.`, or
containing `localhost`, are given plaintext `http`; every other address —
including private 172.16/12 addresses — is given `https`. -/
theorem C9_scheme_heuristic (url : String)
    (h1 : hasScheme url = false)
    (h2 : strContains url "/api/v4" = false) :
    (httpHeuristic url = true → normalizeUrl url = "http://" ++ url) ∧
    (httpHeuristic url = false → normalizeUrl url = "https://" ++ url) := by
  have hs : stripApiPath url = url := by simp [stripApiPath, h2]
  constructor
  · intro h
    simp [normalizeUrl, hs, inferScheme, h1, h]
  · intro h
    simp [normalizeUrl, hs, inferScheme, h1, h]

/-- Witness for C9 amended at a private `192.168.` address and a plain
domain name. -/
theorem C9_scheme_heuristic_witness :
    normalizeUrl "192.168.1.10" = "http://" ++ "192.168.1.10" ∧
    normalizeUrl "chat.example.com" = "https://" ++ "chat.example.com" := by
  constructor
  · exact (C9_scheme_heuristic "192.168.1.10" (by decide) (by decide)).1
      (by decide)
  · exact (C9_scheme_heuristic "chat.example.com" (by decide) (by decide)).2
      (by decide)

/-- C10: a truthy `data` payload that fails `DATA_SCHEMA` validation is
silently replaced by `{}`: the send proceeds as a plain text-only message
with no attachments and no file path, and no validation error reaches the
caller. -/
theorem C10_invalid_data_ignored (host : Host) (srv : Server)
    (defaultChannel : String) (message : String) (title : Option String)
    (target? : Option (List String)) (d : PyVal)
    (h1 : pyTruthy d = true) (h2 : validData d = false) :
    asyncSendMessage host srv defaultChannel message title target? (some d) =
      sendTextMessage srv ((target?.getD [defaultChannel]).map lstripHash)
        message title Option.none := by
  simp [asyncSendMessage, h1, h2, dictGet, attachmentsOf]

/-- Witness for C10 at the invalid payload `{"file": "x"}` (the `file`
value must itself be a dict). -/
theorem C10_invalid_data_ignored_witness :
    pyTruthy (PyVal.dictv [("file", PyVal.str "x")]) = true ∧
    validData (PyVal.dictv [("file", PyVal.str "x")]) = false ∧
    asyncSendMessage host0 srvC3 "general" "hi" Option.none Option.none
        (some (PyVal.dictv [("file", PyVal.str "x")])) =
      sendTextMessage srvC3 (((Option.none : Option (List String)).getD
        ["general"]).map lstripHash) "hi" Option.none Option.none := by
  refine ⟨rfl, rfl, ?_⟩
  exact C10_invalid_data_ignored host0 srvC3 "general" "hi" Option.none
    Option.none (PyVal.dictv [("file", PyVal.str "x")]) rfl rfl

/-- Witness for C2 amended: on the two-team server the slug `general`
resolves through the second team after the first misses, the trace showing
the first team's slug lookup and channel listing in order before the
winning slug lookup. -/
theorem C2_resolution_search_witness :
    getChannelId srvC2 "general" =
      (some cidC3, ApiCall.getTeams ::
        (missCalls (lstripHash "general") [⟨"T0", "alpha"⟩] ++
          [ApiCall.getChannelByName "T1" (lstripHash "general")])) := by
  exact (C2_resolution_search srvC2 "general" (by decide)).2.2.2.1
    [⟨"T0", "alpha"⟩] ⟨"T1", "team1"⟩ [] cidC3 rfl (by decide) rfl
